import Mathlib

/-!
# Verification of the Account REST service

A shallow embedding of the Account CRUD microservice.  The route handlers
(`create_accounts`, `list_accounts`, `read_account`, `upate_account`,
`delete_account`, `check_content_type`) are translated from
`service/routes.py`.  The `Account` entity and its persistence operations
live in `service/models.py`, which is not part of the provided sources;
those are modelled from the specification (each such definition carries a
doc comment saying so).
-/

namespace AccountService

/-- A JSON payload for create/update, as the handlers see it after parsing.
Each field of the body shape
`\x7b name, email, address, phone_number?, date_joined? \x7d` may be present
or absent; unknown extra fields are ignored by deserialization and hence not
modelled. -/
structure Payload where
  name : Option String
  email : Option String
  address : Option String
  phone_number : Option String
  date_joined : Option String
  deriving Repr, DecidableEq

/-- Modelled from the spec: the Account record (§3).  `id` is a
server-assigned integer; `name`, `email`, `address` are required strings;
`phone_number` is optional; `date_joined` is kept in its serialized form,
an ISO date string. -/
structure Account where
  id : Nat
  name : String
  email : String
  address : String
  phone_number : Option String
  date_joined : String
  deriving Repr, DecidableEq

/-- Modelled from the spec: the transient (id-less) result of
`Account.deserialize` — the attributes populated from a payload mapping
(§4.1). -/
structure AccountData where
  name : String
  email : String
  address : String
  phone_number : Option String
  date_joined : String
  deriving Repr, DecidableEq

/-- Modelled from the spec: `deserialize(payload)` of `service/models.py`
(§4.1).  Fails with a `DataValidationError` (modelled as the error string)
when the payload is not a mapping (`none` here) or when a required field
(`name`, `email`, `address`) is missing; the error message names the
missing attribute.  `date_joined`, if absent, defaults to the creation
date, passed in as `today`. -/
def deserialize (payload : Option Payload) (today : String) :
    Except String AccountData :=
  match payload with
  | none => .error "Invalid Account: body contained bad or no data"
  | some p =>
    match p.name with
    | none => .error "Invalid Account: missing name"
    | some n =>
      match p.email with
      | none => .error "Invalid Account: missing email"
      | some e =>
        match p.address with
        | none => .error "Invalid Account: missing address"
        | some addr =>
          .ok { name := n, email := e, address := addr,
                phone_number := p.phone_number,
                date_joined := p.date_joined.getD today }

/-- Modelled from the spec: the persistence adapter owning the stored
records (§2, §3).  `next_id` realises "id is assigned by the persistence
layer on creation and never reused after deletion". -/
structure Store where
  next_id : Nat
  records : List Account
  deriving Repr, DecidableEq

/-- The empty store. -/
def Store.empty : Store := { next_id := 1, records := [] }

/-- Modelled from the spec: `Account.find(id)` — returns the record with
the given identifier or the sentinel absent value (§4.1); never raises. -/
def Store.find (s : Store) (acct_id : Nat) : Option Account :=
  s.records.find? (fun r => r.id == acct_id)

/-- Modelled from the spec: `account.create()` — the persistence adapter
assigns a fresh `id` and appends the record in storage order (§3, §4.1). -/
def Store.create (s : Store) (d : AccountData) : Account × Store :=
  let a : Account :=
    { id := s.next_id, name := d.name, email := d.email,
      address := d.address, phone_number := d.phone_number,
      date_joined := d.date_joined }
  (a, { next_id := s.next_id + 1, records := s.records ++ [a] })

/-- Modelled from the spec: `account.update()` — full-record replace of the
stored record carrying the same `id` (§3, §4.1). -/
def Store.update (s : Store) (a : Account) : Store :=
  { s with records := s.records.map (fun r => if r.id == a.id then a else r) }

/-- Modelled from the spec: `account.delete()` — removes the record from
the store (§4.1). -/
def Store.delete (s : Store) (acct_id : Nat) : Store :=
  { s with records := s.records.filter (fun r => r.id != acct_id) }

/-- A response body: a single serialized record, a JSON array of records,
or a message string. -/
inductive Body where
  | record : Account → Body
  | records : List Account → Body
  | message : String → Body
  deriving Repr, DecidableEq

/-- An HTTP response as the handlers build it: status code, optional
`Location` header, body. -/
structure Response where
  status : Nat
  location : Option String
  body : Body
  deriving Repr, DecidableEq

/-- An inbound request to the POST endpoint: the `Content-Type` header
(`none` when absent) and the parsed JSON body (`none` when the body is
missing or not a JSON mapping). -/
structure Request where
  content_type : Option String
  body : Option Payload
  deriving Repr, DecidableEq

/-- From `service/routes.py`, `check_content_type`: the check passes
exactly when the header value is truthy (present and non-empty) and equal
to the expected media type; otherwise the handler aborts with 415. -/
def check_content_type (content_type : Option String)
    (media_type : String) : Bool :=
  match content_type with
  | some ct => ct != "" && ct == media_type
  | none => false

/-- From `service/routes.py`, `create_accounts` (POST `/accounts`): checks
the content type (415 on failure), deserializes the body (the raised
`DataValidationError` becomes a 400), creates the account and returns 201
with the serialized record and a `Location` header of `"/"`. -/
def create_accounts (req : Request) (today : String) (s : Store) :
    Response × Store :=
  if check_content_type req.content_type "application/json" then
    match deserialize req.body today with
    | .error msg =>
      ({ status := 400, location := none, body := .message msg }, s)
    | .ok d =>
      let res := s.create d
      ({ status := 201, location := some "/", body := .record res.1 },
       res.2)
  else
    ({ status := 415, location := none,
       body := .message "Content-Type must be application/json" }, s)

/-- From `service/routes.py`, `list_accounts` (GET `/accounts`): serializes
every stored record into a JSON array and returns 200 with a `Location`
header of `"/"`. -/
def list_accounts (s : Store) : Response × Store :=
  ({ status := 200, location := some "/", body := .records s.records }, s)

/-- From `service/routes.py`, `read_account` (GET `/accounts/{id}`):
404 with a descriptive message when the id is absent, else 200 with the
serialized record; both responses carry a `Location` header of `"/"`. -/
def read_account (acct_id : Nat) (s : Store) : Response × Store :=
  match s.find acct_id with
  | none =>
    ({ status := 404, location := some "/",
       body := .message s!"No account found with id: [{acct_id}]" }, s)
  | some a =>
    ({ status := 200, location := some "/", body := .record a }, s)

/-- From `service/routes.py`, `upate_account` (PUT `/accounts/{id}`):
aborts with 404 when the id is absent (the abort path bypasses the
handler's `make_response`, so no `Location` header is attached);
otherwise deserializes the body (a `DataValidationError` becomes a 400),
performs the full-record update and returns 200 with the updated record
and a `Location` header of `"/"`. -/
def upate_account (acct_id : Nat) (req_body : Option Payload)
    (today : String) (s : Store) : Response × Store :=
  match s.find acct_id with
  | none =>
    ({ status := 404, location := none,
       body := .message s!"No account found with id: [{acct_id}]" }, s)
  | some a =>
    match deserialize req_body today with
    | .error msg =>
      ({ status := 400, location := none, body := .message msg }, s)
    | .ok d =>
      let a2 : Account :=
        { id := a.id, name := d.name, email := d.email,
          address := d.address, phone_number := d.phone_number,
          date_joined := d.date_joined }
      ({ status := 200, location := some "/", body := .record a2 },
       s.update a2)

/-- From `service/routes.py`, `delete_account` (DELETE `/accounts/{id}`):
always returns 204 with a `Location` header of `"/"`; deletes the record
when it exists, logs and does nothing when it does not. -/
def delete_account (acct_id : Nat) (s : Store) : Response × Store :=
  match s.find acct_id with
  | none =>
    ({ status := 204, location := some "/",
       body := .message s!"Account id [{acct_id}] not found, nothing to do." },
     s)
  | some _ =>
    ({ status := 204, location := some "/",
       body := .message s!"Account id [{acct_id}] deleted" },
     s.delete acct_id)

/-- A request whose `Content-Type` is `application/json` and whose body
parsed to payload `p`. -/
def jsonRequest (p : Payload) : Request :=
  { content_type := some "application/json", body := some p }

/-- Posting a list of payloads in order, threading the store. -/
def post_many (ps : List Payload) (today : String) (s : Store) : Store :=
  ps.foldl (fun st p => (create_accounts (jsonRequest p) today st).2) s

/-- The freshness invariant the persistence adapter maintains: every stored
id is strictly below the next id to be assigned. -/
def Store.fresh (s : Store) : Prop :=
  ∀ r ∈ s.records, r.id < s.next_id

/-- A payload is valid when all three required fields are present. -/
def Payload.valid (p : Payload) : Prop :=
  p.name.isSome ∧ p.email.isSome ∧ p.address.isSome

instance (p : Payload) : Decidable p.valid := by
  unfold Payload.valid; infer_instance

/-- A concrete valid payload used by the witnesses. -/
def samplePayload : Payload :=
  { name := some "John Doe", email := some "john@example.com",
    address := some "123 Main St", phone_number := none,
    date_joined := none }

/-- A concrete payload missing the required `email` field. -/
def missingEmailPayload : Payload :=
  { name := some "John Doe", email := none,
    address := some "123 Main St", phone_number := none,
    date_joined := none }

/-- C10: a POST carrying no `Content-Type` header at all fails the
media-type check (hence 415), and the check succeeds exactly when the
header is present and equals `application/json`. -/
theorem check_content_type_absent_or_exact :
    check_content_type none "application/json" = false ∧
    ∀ ct : Option String,
      check_content_type ct "application/json" = true ↔
        ct = some "application/json" := by
  refine ⟨rfl, ?_⟩
  intro ct
  cases ct with
  | none => simp [check_content_type]
  | some v =>
    simp only [check_content_type, Bool.and_eq_true, bne_iff_ne, ne_eq,
      beq_iff_eq, Option.some.injEq]
    constructor
    · rintro ⟨-, h⟩; exact h
    · rintro rfl; exact ⟨by decide, rfl⟩

/-- C5: a POST whose `Content-Type` is not `application/json` is answered
with 415 and the store is left unchanged — no record is created. -/
theorem create_accounts_wrong_media_type (req : Request) (today : String)
    (s : Store) (h : req.content_type ≠ some "application/json") :
    (create_accounts req today s).1.status = 415 ∧
    (create_accounts req today s).2 = s := by
  have hc : check_content_type req.content_type "application/json" = false := by
    cases hct : req.content_type with
    | none => rfl
    | some v =>
      have hv : v ≠ "application/json" := by
        intro hh; exact h (by rw [hct, hh])
      simp [check_content_type, hv]
  simp [create_accounts, hc]

/-- Witness for C5 at a concrete wrong media type. -/
theorem create_accounts_wrong_media_type_witness :
    (create_accounts ⟨some "test/html", some samplePayload⟩ "2020-01-01"
        Store.empty).1.status = 415 ∧
    (create_accounts ⟨some "test/html", some samplePayload⟩ "2020-01-01"
        Store.empty).2 = Store.empty :=
  create_accounts_wrong_media_type ⟨some "test/html", some samplePayload⟩
    "2020-01-01" Store.empty (by decide)

/-- C7: the media-type check is enforced only on POST: the PUT handler
never answers 415, whatever the request looked like, while every POST
failing the media-type check is answered 415 before any state change. -/
theorem media_type_asymmetry :
    (∀ (i : Nat) (b : Option Payload) (today : String) (s : Store),
      (upate_account i b today s).1.status ≠ 415) ∧
    (∀ (req : Request) (today : String) (s : Store),
      check_content_type req.content_type "application/json" = false →
      (create_accounts req today s).1.status = 415 ∧
      (create_accounts req today s).2 = s) := by
  constructor
  · intro i b today s
    unfold upate_account
    cases hf : s.find i with
    | none => simp
    | some a =>
      cases hd : deserialize b today with
      | error msg => simp [hd]
      | ok d => simp [hd]
  · intro req today s h
    simp [create_accounts, h]

/-- Witness for C7: a PUT on an absent id answers 404 (in particular not
415), and a POST without any `Content-Type` header answers 415. -/
theorem media_type_asymmetry_witness :
    (upate_account 0 none "2020-01-01" Store.empty).1.status ≠ 415 ∧
    (create_accounts ⟨none, some samplePayload⟩ "2020-01-01"
        Store.empty).1.status = 415 :=
  ⟨media_type_asymmetry.1 0 none "2020-01-01" Store.empty,
   (media_type_asymmetry.2 ⟨none, some samplePayload⟩ "2020-01-01"
     Store.empty rfl).1⟩

/-- C9: every successful POST carries `Location: /` — a constant that does
not point at the created record — and the list, read, update and delete
handlers likewise attach `Location: /` to the responses they build. -/
theorem location_header_is_root :
    (∀ (req : Request) (today : String) (s : Store),
      (create_accounts req today s).1.status = 201 →
      (create_accounts req today s).1.location = some "/") ∧
    (∀ s : Store, (list_accounts s).1.location = some "/") ∧
    (∀ (i : Nat) (s : Store), (read_account i s).1.location = some "/") ∧
    (∀ (i : Nat) (b : Option Payload) (today : String) (s : Store),
      (upate_account i b today s).1.status = 200 →
      (upate_account i b today s).1.location = some "/") ∧
    (∀ (i : Nat) (s : Store), (delete_account i s).1.location = some "/") := by
  refine ⟨?_, ?_, ?_, ?_, ?_⟩
  · intro req today s h
    by_cases hc : check_content_type req.content_type "application/json"
    · cases hd : deserialize req.body today with
      | error msg => simp [create_accounts, hc, hd] at h
      | ok d => simp [create_accounts, hc, hd]
    · simp [create_accounts, hc] at h
  · intro s; rfl
  · intro i s
    unfold read_account
    cases s.find i <;> simp
  · intro i b today s h
    unfold upate_account at h ⊢
    cases hf : s.find i with
    | none => simp [hf] at h
    | some a =>
      cases hd : deserialize b today with
      | error msg => simp [hf, hd] at h
      | ok d => simp [hf, hd]
  · intro i s
    unfold delete_account
    cases s.find i <;> simp

/-- Witness for C9: the parts with a hypothesis, at a concrete creation
and a concrete update. -/
theorem location_header_is_root_witness :
    (create_accounts (jsonRequest samplePayload) "2020-01-01"
        Store.empty).1.location = some "/" ∧
    (upate_account 1 (some samplePayload) "2020-01-01"
        (create_accounts (jsonRequest samplePayload) "2020-01-01"
          Store.empty).2).1.location = some "/" :=
  ⟨location_header_is_root.1 (jsonRequest samplePayload) "2020-01-01"
     Store.empty rfl,
   location_header_is_root.2.2.2.1 1 (some samplePayload) "2020-01-01"
     (create_accounts (jsonRequest samplePayload) "2020-01-01"
       Store.empty).2 rfl⟩

/-- Helper: under the freshness invariant, finding the just-created id in
the store returned by `create` yields the created record. -/
theorem Store.find_create (s : Store) (d : AccountData) (hfresh : s.fresh) :
    (s.create d).2.find s.next_id = some (s.create d).1 := by
  unfold Store.create Store.find
  simp only
  rw [List.find?_append]
  have h1 : s.records.find? (fun r => r.id == s.next_id) = none := by
    rw [List.find?_eq_none]
    intro r hr
    simpa using Nat.ne_of_lt (hfresh r hr)
  rw [h1]
  simp

/-- Helper: on a valid json request, `create_accounts` reduces to a plain
`Store.create` of the deserialized data. -/
theorem create_accounts_valid_eq (p : Payload) (today : String) (s : Store)
    (n e addr : String) (hn : p.name = some n) (he : p.email = some e)
    (ha : p.address = some addr) :
    create_accounts (jsonRequest p) today s =
      ({ status := 201, location := some "/",
         body := .record { id := s.next_id, name := n, email := e,
                           address := addr, phone_number := p.phone_number,
                           date_joined := p.date_joined.getD today } },
       { next_id := s.next_id + 1,
         records := s.records ++
           [{ id := s.next_id, name := n, email := e, address := addr,
              phone_number := p.phone_number,
              date_joined := p.date_joined.getD today }] }) := by
  have hct : check_content_type (some "application/json")
      "application/json" = true := by decide
  simp [create_accounts, jsonRequest, hct, deserialize, hn, he, ha,
    Store.create]

/-- C1: POSTing a valid payload (all of `name`, `email`, `address`
present) answers 201 with a `Location` header, and the response record's
fields equal the input fields, except that `id` is the store's freshly
assigned identifier (distinct from every stored id) and `date_joined` is
materialized — the payload's value when present, the creation date
otherwise. -/
theorem create_accounts_valid_payload (p : Payload) (today : String)
    (s : Store) (n e addr : String) (hn : p.name = some n)
    (he : p.email = some e) (ha : p.address = some addr)
    (hfresh : s.fresh) :
    (create_accounts (jsonRequest p) today s).1.status = 201 ∧
    (create_accounts (jsonRequest p) today s).1.location = some "/" ∧
    (create_accounts (jsonRequest p) today s).1.body =
      .record { id := s.next_id, name := n, email := e, address := addr,
                phone_number := p.phone_number,
                date_joined := p.date_joined.getD today } ∧
    (∀ r ∈ s.records, r.id ≠ s.next_id) := by
  rw [create_accounts_valid_eq p today s n e addr hn he ha]
  refine ⟨rfl, rfl, rfl, ?_⟩
  intro r hr
  exact Nat.ne_of_lt (hfresh r hr)

/-- Witness for C1: a concrete creation on the empty store. -/
theorem create_accounts_valid_payload_witness :
    (create_accounts (jsonRequest samplePayload) "2020-01-01"
        Store.empty).1.status = 201 ∧
    (create_accounts (jsonRequest samplePayload) "2020-01-01"
        Store.empty).1.body =
      .record { id := 1, name := "John Doe", email := "john@example.com",
                address := "123 Main St", phone_number := none,
                date_joined := "2020-01-01" } :=
  have h := create_accounts_valid_payload samplePayload "2020-01-01"
    Store.empty "John Doe" "john@example.com" "123 Main St" rfl rfl rfl
    (by intro r hr; simp [Store.empty] at hr)
  ⟨h.1, h.2.2.1⟩

/-- C2: reading back the id assigned by a prior POST answers 200 with the
submitted fields; reading an id absent from the store answers 404 with a
descriptive message, leaves the store unchanged, and (being a total
function) never raises. -/
theorem read_account_contract (p : Payload) (today : String) (s : Store)
    (n e addr : String) (hn : p.name = some n) (he : p.email = some e)
    (ha : p.address = some addr) (hfresh : s.fresh) :
    ((read_account s.next_id
        (create_accounts (jsonRequest p) today s).2).1.status = 200 ∧
     (read_account s.next_id
        (create_accounts (jsonRequest p) today s).2).1.body =
       .record { id := s.next_id, name := n, email := e, address := addr,
                 phone_number := p.phone_number,
                 date_joined := p.date_joined.getD today }) ∧
    (∀ (i : Nat) (st : Store) (a : Account), st.find i = some a →
      (read_account i st).1.status = 200 ∧
      (read_account i st).1.body = .record a) ∧
    (∀ (i : Nat) (st : Store), st.find i = none →
      (read_account i st).1.status = 404 ∧
      (read_account i st).1.body =
        .message s!"No account found with id: [{i}]" ∧
      (read_account i st).2 = st) := by
  refine ⟨?_, ?_, ?_⟩
  · have hfind := Store.find_create s
      { name := n, email := e, address := addr,
        phone_number := p.phone_number,
        date_joined := p.date_joined.getD today } hfresh
    have h2 : (create_accounts (jsonRequest p) today s).2 =
        (s.create { name := n, email := e, address := addr,
                    phone_number := p.phone_number,
                    date_joined := p.date_joined.getD today }).2 := by
      rw [create_accounts_valid_eq p today s n e addr hn he ha]
      rfl
    rw [h2]
    unfold read_account
    rw [hfind]
    exact ⟨rfl, rfl⟩
  · intro i st a hf
    rw [read_account]
    simp [hf]
  · intro i st hf
    rw [read_account]
    simp [hf]

/-- Witness for C2: create on the empty store, then read id 1 back. -/
theorem read_account_contract_witness :
    (read_account 1 (create_accounts (jsonRequest samplePayload)
        "2020-01-01" Store.empty).2).1.status = 200 ∧
    (read_account 1 (create_accounts (jsonRequest samplePayload)
        "2020-01-01" Store.empty).2).1.body =
      .record { id := 1, name := "John Doe", email := "john@example.com",
                address := "123 Main St", phone_number := none,
                date_joined := "2020-01-01" } ∧
    (read_account 0 Store.empty).1.status = 404 :=
  have h := read_account_contract samplePayload "2020-01-01" Store.empty
    "John Doe" "john@example.com" "123 Main St" rfl rfl rfl
    (by intro r hr; simp [Store.empty] at hr)
  ⟨h.1.1, h.1.2, (h.2.2 0 Store.empty rfl).1⟩

/-- Helper: after `Store.delete i`, the id `i` is no longer found. -/
theorem Store.find_delete (s : Store) (i : Nat) :
    (s.delete i).find i = none := by
  unfold Store.delete Store.find
  rw [List.find?_eq_none]
  intro r hr
  rw [List.mem_filter] at hr
  simpa using hr.2

/-- C3: DELETE always answers 204; when the id exists the record is
removed, so a subsequent GET on it answers 404; when it does not exist the
store is left unchanged. -/
theorem delete_account_contract (i : Nat) (s : Store) :
    (delete_account i s).1.status = 204 ∧
    (s.find i ≠ none →
      (read_account i (delete_account i s).2).1.status = 404) ∧
    (s.find i = none → (delete_account i s).2 = s) := by
  unfold delete_account
  cases hf : s.find i with
  | none => simp
  | some a =>
    refine ⟨rfl, ?_, by simp⟩
    intro _
    simp only
    rw [read_account]
    rw [Store.find_delete]

/-- Witness for C3: delete the record created on the empty store, then the
GET on its id answers 404; deleting from the empty store is a no-op. -/
theorem delete_account_contract_witness :
    (delete_account 1 (create_accounts (jsonRequest samplePayload)
        "2020-01-01" Store.empty).2).1.status = 204 ∧
    (read_account 1 (delete_account 1
        (create_accounts (jsonRequest samplePayload) "2020-01-01"
          Store.empty).2).2).1.status = 404 ∧
    (delete_account 0 Store.empty).2 = Store.empty :=
  have h1 := delete_account_contract 1
    (create_accounts (jsonRequest samplePayload) "2020-01-01" Store.empty).2
  have h2 := delete_account_contract 0 Store.empty
  ⟨h1.1, h1.2.1 (by decide), h2.2.2 rfl⟩

/-- C4: PUT on an existing id with a validly deserializing body answers
200, and the response is the full-record replacement — in particular a
modified `name` appears in the response; PUT on a non-existent id answers
404, whatever the body. -/
theorem upate_account_contract (i : Nat) (p : Payload) (today : String)
    (s : Store) (n e addr : String) (hn : p.name = some n)
    (he : p.email = some e) (ha : p.address = some addr) :
    (∀ a : Account, s.find i = some a →
      (upate_account i (some p) today s).1.status = 200 ∧
      (upate_account i (some p) today s).1.body =
        .record { id := a.id, name := n, email := e, address := addr,
                  phone_number := p.phone_number,
                  date_joined := p.date_joined.getD today }) ∧
    (s.find i = none →
      ∀ b : Option Payload, (upate_account i b today s).1.status = 404) := by
  constructor
  · intro a hf
    simp [upate_account, hf, deserialize, hn, he, ha]
  · intro hf b
    simp [upate_account, hf]

/-- Witness for C4: update the record created on the empty store with a
modified name, and PUT on the never-assigned id 0. -/
theorem upate_account_contract_witness :
    (upate_account 1
        (some { samplePayload with name := some "Foo X. Bar" })
        "2020-01-01"
        (create_accounts (jsonRequest samplePayload) "2020-01-01"
          Store.empty).2).1.status = 200 ∧
    (upate_account 1
        (some { samplePayload with name := some "Foo X. Bar" })
        "2020-01-01"
        (create_accounts (jsonRequest samplePayload) "2020-01-01"
          Store.empty).2).1.body =
      .record { id := 1, name := "Foo X. Bar", email := "john@example.com",
                address := "123 Main St", phone_number := none,
                date_joined := "2020-01-01" } ∧
    (upate_account 0 none "2020-01-01" Store.empty).1.status = 404 :=
  have h1 := upate_account_contract 1
    { samplePayload with name := some "Foo X. Bar" } "2020-01-01"
    (create_accounts (jsonRequest samplePayload) "2020-01-01" Store.empty).2
    "Foo X. Bar" "john@example.com" "123 Main St" rfl rfl rfl
  have h2 := upate_account_contract 0 samplePayload "2020-01-01" Store.empty
    "John Doe" "john@example.com" "123 Main St" rfl rfl rfl
  have hfound := h1.1
    { id := 1, name := "John Doe", email := "john@example.com",
      address := "123 Main St", phone_number := none,
      date_joined := "2020-01-01" } (by decide)
  ⟨hfound.1, hfound.2, h2.2 rfl none⟩

/-- C6: a json POST whose body misses a required field fails
deserialization with a `DataValidationError` whose message names the first
missing attribute among `name`, `email`, `address`, and is answered 400
with the store unchanged. -/
theorem create_accounts_missing_field (p : Payload) (today : String)
    (s : Store) (h : ¬ p.valid) :
    (create_accounts (jsonRequest p) today s).1.status = 400 ∧
    (create_accounts (jsonRequest p) today s).2 = s ∧
    (p.name = none →
      deserialize (some p) today = .error "Invalid Account: missing name") ∧
    (p.name ≠ none → p.email = none →
      deserialize (some p) today = .error "Invalid Account: missing email") ∧
    (p.name ≠ none → p.email ≠ none → p.address = none →
      deserialize (some p) today =
        .error "Invalid Account: missing address") := by
  have hct : check_content_type (some "application/json")
      "application/json" = true := by decide
  have herr : ∃ msg, deserialize (some p) today = .error msg := by
    cases hn : p.name with
    | none =>
      exact ⟨"Invalid Account: missing name", by simp [deserialize, hn]⟩
    | some n =>
      cases he : p.email with
      | none =>
        exact ⟨"Invalid Account: missing email",
          by simp [deserialize, hn, he]⟩
      | some e =>
        cases ha : p.address with
        | none =>
          exact ⟨"Invalid Account: missing address",
            by simp [deserialize, hn, he, ha]⟩
        | some addr =>
          refine absurd ?_ h
          unfold Payload.valid
          exact ⟨by simp [hn], by simp [he], by simp [ha]⟩
  obtain ⟨msg, hmsg⟩ := herr
  refine ⟨?_, ?_, ?_, ?_, ?_⟩
  · simp [create_accounts, jsonRequest, hct, hmsg]
  · simp [create_accounts, jsonRequest, hct, hmsg]
  · intro hn; simp [deserialize, hn]
  · intro hn he
    rw [Option.ne_none_iff_exists] at hn
    obtain ⟨n, hn⟩ := hn
    simp [deserialize, hn.symm, he]
  · intro hn he ha
    rw [Option.ne_none_iff_exists] at hn
    rw [Option.ne_none_iff_exists] at he
    obtain ⟨n, hn⟩ := hn
    obtain ⟨e, he⟩ := he
    simp [deserialize, hn.symm, he.symm, ha]

/-- Witness for C6: a POST missing the `email` field on the empty store. -/
theorem create_accounts_missing_field_witness :
    (create_accounts (jsonRequest missingEmailPayload) "2020-01-01"
        Store.empty).1.status = 400 ∧
    (create_accounts (jsonRequest missingEmailPayload) "2020-01-01"
        Store.empty).2 = Store.empty ∧
    deserialize (some missingEmailPayload) "2020-01-01" =
      .error "Invalid Account: missing email" :=
  have h := create_accounts_missing_field missingEmailPayload "2020-01-01"
    Store.empty (by decide)
  ⟨h.1, h.2.1, h.2.2.2.1 (by decide) rfl⟩

/-- Helper: a valid json POST grows the record list by exactly one. -/
theorem create_accounts_valid_length (p : Payload) (today : String)
    (s : Store) (h : p.valid) :
    (create_accounts (jsonRequest p) today s).2.records.length =
      s.records.length + 1 := by
  obtain ⟨hn, he, ha⟩ := h
  obtain ⟨n, hn⟩ := Option.isSome_iff_exists.mp hn
  obtain ⟨e, he⟩ := Option.isSome_iff_exists.mp he
  obtain ⟨addr, ha⟩ := Option.isSome_iff_exists.mp ha
  rw [create_accounts_valid_eq p today s n e addr hn he ha]
  simp

/-- Helper: posting a list of valid payloads grows the record list by the
length of the list. -/
theorem post_many_length (ps : List Payload) (today : String) (s : Store)
    (h : ∀ p ∈ ps, p.valid) :
    (post_many ps today s).records.length =
      s.records.length + ps.length := by
  induction ps generalizing s with
  | nil => simp [post_many]
  | cons p ps ih =>
    have hp : p.valid := h p (List.mem_cons_self p ps)
    have hps : ∀ q ∈ ps, q.valid := fun q hq => h q (List.mem_cons_of_mem p hq)
    show (post_many ps today
      (create_accounts (jsonRequest p) today s).2).records.length = _
    rw [ih _ hps, create_accounts_valid_length p today s hp]
    simp [Nat.add_assoc, Nat.add_comm 1 ps.length]

/-- C8: GET `/accounts` always answers 200 with a JSON array holding one
serialized object per stored record and leaves the store unchanged; on the
empty store the array is empty, and after N valid creations on top of any
store the array has grown by exactly N elements. -/
theorem list_accounts_contract :
    (∀ s : Store,
      (list_accounts s).1.status = 200 ∧
      (list_accounts s).1.body = .records s.records ∧
      (list_accounts s).2 = s) ∧
    (list_accounts Store.empty).1.body = .records [] ∧
    (∀ (ps : List Payload) (today : String) (s : Store),
      (∀ p ∈ ps, p.valid) →
      (post_many ps today s).records.length =
        s.records.length + ps.length) := by
  refine ⟨fun s => ⟨rfl, rfl, rfl⟩, rfl, ?_⟩
  intro ps today s h
  exact post_many_length ps today s h

/-- Witness for C8: posting two concrete valid payloads on the empty store
yields exactly two stored records. -/
theorem list_accounts_contract_witness :
    (post_many [samplePayload, samplePayload] "2020-01-01"
        Store.empty).records.length = Store.empty.records.length + 2 :=
  list_accounts_contract.2.2 [samplePayload, samplePayload] "2020-01-01"
    Store.empty (by intro p hp; fin_cases hp <;> decide)

end AccountService
